import Mathlib

/-!
Shallow embedding of the update-check-and-install flow of `src/src-tauri/src/main.rs`
(a Tauri desktop shell).  The two functions of interest are:

* `check_for_updates` (Rust, lines 7–36): a UI-invokable command that spawns one
  asynchronous background task.  The task builds an updater client
  (`app.updater_builder().build()`); on `Err(e)` it logs
  `"Failed to build updater: {e}"` and stops.  On `Ok(updater)` it performs a single
  `updater.check().await`; only when that returns `Ok(Some(update))` does it call
  `update.download_and_install(on_chunk, on_finished).await.ok()`.  The chunk
  callback does `downloaded += chunk_length` (a `usize`, i.e. 64-bit wrapping in
  release builds) and prints `"Downloaded {downloaded} of {content_length}"`; the
  finished callback prints `"Download finished"`.  The final `.ok()` converts the
  download/install `Result` to an `Option` which is discarded.

* `main` (Rust, lines 38–128): builds the window (`.unwrap()`), shows it
  (`.unwrap()`), and — only when `debug_assertions` is off — spawns one task that
  sleeps 5 seconds and calls `check_for_updates` once; the command is registered
  through `tauri::generate_handler![check_for_updates]`; the application loop is
  run with `.expect("error while running tauri application")`.

The environment (network, updater plugin, window system) is represented by inert
data describing the outcome of each external call, and the embedded functions
produce the list of observable events (log lines, download/install actions)
exactly as the Rust control flow dictates.
-/

namespace Pond

/-- Modulus of the 64-bit unsigned counter `downloaded` (`usize` on the 64-bit
targets this application builds for; release-mode addition wraps). -/
def U64_MOD : Nat := 2 ^ 64

/-- Descriptor of an available update as consumed by the coordinator: the
content length reported by the update source (possibly unknown) and the byte
lengths of the chunks actually delivered to the chunk callback, in order. -/
structure UpdateInfo where
  contentLength : Option Nat
  chunks : List Nat
  deriving Repr, DecidableEq

/-- Outcome of the external `update.download_and_install(..).await` call:
either it succeeds, or it fails while installing (after the download finished),
or it fails during the download itself (in which case `UpdateInfo.chunks` holds
the chunks delivered before the failure). -/
inductive DownloadResult where
  | success
  | installError (msg : String)
  | downloadError (msg : String)
  deriving Repr, DecidableEq

/-- Outcome of the external `updater.check().await` call. -/
inductive CheckOutcome where
  | checkError
  | noUpdate
  | updateAvailable (u : UpdateInfo) (res : DownloadResult)
  deriving Repr, DecidableEq

/-- Outcome of the external `app.updater_builder().build()` call. -/
inductive UpdaterEnv where
  | buildError (msg : String)
  | builtOk (check : CheckOutcome)
  deriving Repr, DecidableEq

/-- Observable events emitted by one invocation of the update task:
`errorLog` is the `eprintln!` in the `Err` arm; `queried` marks the single
`updater.check().await`; `downloadStarted` marks the single
`download_and_install` invocation; `progressLine` is the `println!` inside the
chunk callback (carrying the accumulated counter and the possibly-unknown
total); `downloadFinishedLine` is the `println!` in the finished callback;
`installInvoked` marks the install step performed by `download_and_install`
after the download completes. -/
inductive Event where
  | errorLog (msg : String)
  | queried
  | downloadStarted
  | progressLine (downloaded : Nat) (contentLength : Option Nat)
  | downloadFinishedLine
  | installInvoked
  deriving Repr, DecidableEq

/-- Embedding of the chunk callback loop: for each received chunk the source
closure executes `downloaded += chunk_length` (64-bit wrapping addition) and
logs one progress line with the new accumulated value and the content length.
Returns the emitted events together with the final value of `downloaded`. -/
def chunkEvents (contentLength : Option Nat) (downloaded : Nat) :
    List Nat → List Event × Nat
  | [] => ([], downloaded)
  | c :: cs =>
      let d := (downloaded + c) % U64_MOD
      let r := chunkEvents contentLength d cs
      (Event.progressLine d contentLength :: r.1, r.2)

/-- Embedding of `update.download_and_install(on_chunk, on_finished)`: the
external driver feeds each delivered chunk to the chunk callback; when the
download completes it fires the finished callback (which logs the completion
marker) and then performs the install.  It returns the emitted events together
with the `Result` value the Rust call produces. -/
def download_and_install (u : UpdateInfo) (res : DownloadResult) :
    List Event × Except String Unit :=
  let r := chunkEvents u.contentLength 0 u.chunks
  match res with
  | DownloadResult.downloadError m => (r.1, Except.error m)
  | DownloadResult.installError m =>
      (r.1 ++ [Event.downloadFinishedLine, Event.installInvoked], Except.error m)
  | DownloadResult.success =>
      (r.1 ++ [Event.downloadFinishedLine, Event.installInvoked], Except.ok ())

/-- Embedding of Rust `Result::ok()`, applied to the result of
`download_and_install` before it is discarded. -/
def resultOk (e : Except String Unit) : Option Unit :=
  match e with
  | Except.ok u => some u
  | Except.error _ => none

/-- Embedding of the async block spawned by `check_for_updates`: on builder
failure it logs the error and stops; otherwise it queries once, and only an
`Ok(Some(update))` check result leads to `download_and_install`, whose error is
converted with `.ok()` and discarded.  The task's only output is its event
list; it has no error channel. -/
def check_for_updates_task (env : UpdaterEnv) : List Event :=
  match env with
  | UpdaterEnv.buildError e =>
      [Event.errorLog ("Failed to build updater: " ++ e)]
  | UpdaterEnv.builtOk check =>
      match check with
      | CheckOutcome.checkError => [Event.queried]
      | CheckOutcome.noUpdate => [Event.queried]
      | CheckOutcome.updateAvailable u res =>
          let r := download_and_install u res
          let _ := resultOk r.2
          Event.queried :: Event.downloadStarted :: r.1

/-- Embedding of the `check_for_updates` Tauri command: it spawns exactly one
background task (whose eventual events are `check_for_updates_task env`) and
returns `()` to the caller immediately. -/
def check_for_updates (env : UpdaterEnv) : Unit × List (List Event) :=
  ((), [check_for_updates_task env])

/-- Description of the delayed task spawned in `setup`: it sleeps `delaySecs`
seconds and then calls `check_for_updates` `invocations` times. -/
structure DelayedTask where
  delaySecs : Nat
  invocations : Nat
  deriving Repr, DecidableEq

/-- Embedding of the `#[cfg(not(debug_assertions))]` block of `setup`: in a
debug build no automatic task is spawned; otherwise exactly one task is
spawned, sleeping 5 seconds and calling `check_for_updates` once. -/
def startupAutoUpdateTasks (debugAssertions : Bool) : List DelayedTask :=
  if debugAssertions then [] else [{ delaySecs := 5, invocations := 1 }]

/-- Embedding of `tauri::generate_handler![check_for_updates]`: the commands
registered with the host, identical in every build configuration. -/
def generatedHandlerCommands : List String := ["check_for_updates"]

/-- Sites in `main`'s startup path whose failure aborts the process
(`win_builder.build().unwrap()`, `window.show().unwrap()`, and
`.run(..).expect("error while running tauri application")`). -/
inductive PanicSite where
  | windowBuildUnwrap
  | windowShowUnwrap
  | runExpect
  deriving Repr, DecidableEq

/-- Terminal outcome of the host process in the embedding of `main`. -/
inductive HostOutcome where
  | panicked (site : PanicSite)
  | exited
  deriving Repr, DecidableEq

/-- Success or failure of each fallible external call made by `main`'s
startup path. -/
structure HostEnv where
  windowBuildOk : Bool
  windowShowOk : Bool
  runOk : Bool
  deriving Repr, DecidableEq

/-- Embedding of `main`'s startup control flow: window construction and
`window.show()` are unwrapped (panic on failure), and the application loop's
result is `expect`ed (panic on failure); otherwise the process runs to exit. -/
def main_run (env : HostEnv) : HostOutcome :=
  if env.windowBuildOk then
    if env.windowShowOk then
      if env.runOk then HostOutcome.exited
      else HostOutcome.panicked PanicSite.runExpect
    else HostOutcome.panicked PanicSite.windowShowUnwrap
  else HostOutcome.panicked PanicSite.windowBuildUnwrap

/-- Accumulated counter values of the progress lines of an event list, in
emission order. -/
def progressValues : List Event → List Nat
  | [] => []
  | Event.progressLine d _ :: es => d :: progressValues es
  | _ :: es => progressValues es

/-- Content-length fields of the progress lines of an event list. -/
def progressTotals : List Event → List (Option Nat)
  | [] => []
  | Event.progressLine _ t :: es => t :: progressTotals es
  | _ :: es => progressTotals es

/-- Number of progress lines in an event list. -/
def countProgress : List Event → Nat
  | [] => 0
  | Event.progressLine _ _ :: es => countProgress es + 1
  | _ :: es => countProgress es

/-- Number of completion markers (`"Download finished"`) in an event list. -/
def countFinished : List Event → Nat
  | [] => 0
  | Event.downloadFinishedLine :: es => countFinished es + 1
  | _ :: es => countFinished es

/-- Number of install invocations in an event list. -/
def countInstall : List Event → Nat
  | [] => 0
  | Event.installInvoked :: es => countInstall es + 1
  | _ :: es => countInstall es

/-- Number of update-source queries in an event list. -/
def countQueried : List Event → Nat
  | [] => 0
  | Event.queried :: es => countQueried es + 1
  | _ :: es => countQueried es

/-- Number of `download_and_install` invocations in an event list. -/
def countDownloadStarted : List Event → Nat
  | [] => 0
  | Event.downloadStarted :: es => countDownloadStarted es + 1
  | _ :: es => countDownloadStarted es

/-- Number of error-level log lines in an event list. -/
def countErrorLog : List Event → Nat
  | [] => 0
  | Event.errorLog _ :: es => countErrorLog es + 1
  | _ :: es => countErrorLog es

/-- Running totals of the counter without wraparound: the mathematically exact
partial sums starting from `downloaded`. -/
def exactTotals (downloaded : Nat) : List Nat → List Nat
  | [] => []
  | c :: cs => (downloaded + c) :: exactTotals (downloaded + c) cs

/-- Concrete scenario B of the specification: a 10 MiB artifact delivered in
10 chunks of 1 MiB each. -/
def scenarioB : UpdateInfo :=
  { contentLength := some (10 * 1048576), chunks := List.replicate 10 1048576 }

/-- Whether a `download_and_install` outcome reached completion of the
download (so the finished callback fired and install was invoked). -/
def downloadCompleted : DownloadResult → Bool
  | DownloadResult.downloadError _ => false
  | _ => true

/-! Helper lemmas about the chunk loop and the event counters. -/

lemma chunkEvents_snd (t : Option Nat) (cs : List Nat) :
    ∀ d, d < U64_MOD → (chunkEvents t d cs).2 = (d + cs.sum) % U64_MOD := by
  induction cs with
  | nil =>
      intro d hd
      simp [chunkEvents, Nat.mod_eq_of_lt hd]
  | cons c cs ih =>
      intro d hd
      have hm : (d + c) % U64_MOD < U64_MOD :=
        Nat.mod_lt _ (by simp [U64_MOD])
      calc (chunkEvents t d (c :: cs)).2
          = (chunkEvents t ((d + c) % U64_MOD) cs).2 := rfl
        _ = ((d + c) % U64_MOD + cs.sum) % U64_MOD := ih _ hm
        _ = (d + c + cs.sum) % U64_MOD := Nat.mod_add_mod _ _ _
        _ = (d + (c :: cs).sum) % U64_MOD := by
              rw [List.sum_cons, Nat.add_assoc]

lemma chunkEvents_snd_exact (t : Option Nat) (cs : List Nat) (d : Nat)
    (h : d + cs.sum < U64_MOD) : (chunkEvents t d cs).2 = d + cs.sum := by
  rw [chunkEvents_snd t cs d (Nat.lt_of_le_of_lt (Nat.le_add_right d cs.sum) h)]
  exact Nat.mod_eq_of_lt h

lemma progressValues_chunkEvents_exact (t : Option Nat) (cs : List Nat) :
    ∀ d, d + cs.sum < U64_MOD →
      progressValues (chunkEvents t d cs).1 = exactTotals d cs := by
  induction cs with
  | nil => intro d _; rfl
  | cons c cs ih =>
      intro d h
      have hsum : d + c + cs.sum < U64_MOD := by
        rw [List.sum_cons] at h; omega
      have hdc : (d + c) % U64_MOD = d + c :=
        Nat.mod_eq_of_lt (by omega)
      calc progressValues (chunkEvents t d (c :: cs)).1
          = (d + c) % U64_MOD ::
              progressValues (chunkEvents t ((d + c) % U64_MOD) cs).1 := rfl
        _ = (d + c) :: progressValues (chunkEvents t (d + c) cs).1 := by rw [hdc]
        _ = (d + c) :: exactTotals (d + c) cs := by rw [ih _ hsum]
        _ = exactTotals d (c :: cs) := rfl

lemma progressTotals_chunkEvents (t : Option Nat) (cs : List Nat) :
    ∀ d, progressTotals (chunkEvents t d cs).1 = List.replicate cs.length t := by
  induction cs with
  | nil => intro d; rfl
  | cons c cs ih =>
      intro d
      calc progressTotals (chunkEvents t d (c :: cs)).1
          = t :: progressTotals (chunkEvents t ((d + c) % U64_MOD) cs).1 := rfl
        _ = t :: List.replicate cs.length t := by rw [ih]
        _ = List.replicate (c :: cs).length t := by
              rw [List.length_cons, List.replicate_succ]

lemma countProgress_chunkEvents (t : Option Nat) (cs : List Nat) :
    ∀ d, countProgress (chunkEvents t d cs).1 = cs.length := by
  induction cs with
  | nil => intro d; rfl
  | cons c cs ih =>
      intro d
      calc countProgress (chunkEvents t d (c :: cs)).1
          = countProgress (chunkEvents t ((d + c) % U64_MOD) cs).1 + 1 := rfl
        _ = cs.length + 1 := by rw [ih]
        _ = (c :: cs).length := rfl

lemma countFinished_chunkEvents (t : Option Nat) (cs : List Nat) :
    ∀ d, countFinished (chunkEvents t d cs).1 = 0 := by
  induction cs with
  | nil => intro d; rfl
  | cons c cs ih => intro d; exact ih _

lemma countInstall_chunkEvents (t : Option Nat) (cs : List Nat) :
    ∀ d, countInstall (chunkEvents t d cs).1 = 0 := by
  induction cs with
  | nil => intro d; rfl
  | cons c cs ih => intro d; exact ih _

lemma countErrorLog_chunkEvents (t : Option Nat) (cs : List Nat) :
    ∀ d, countErrorLog (chunkEvents t d cs).1 = 0 := by
  induction cs with
  | nil => intro d; rfl
  | cons c cs ih => intro d; exact ih _

lemma countQueried_chunkEvents (t : Option Nat) (cs : List Nat) :
    ∀ d, countQueried (chunkEvents t d cs).1 = 0 := by
  induction cs with
  | nil => intro d; rfl
  | cons c cs ih => intro d; exact ih _

lemma countDownloadStarted_chunkEvents (t : Option Nat) (cs : List Nat) :
    ∀ d, countDownloadStarted (chunkEvents t d cs).1 = 0 := by
  induction cs with
  | nil => intro d; rfl
  | cons c cs ih => intro d; exact ih _

lemma progressValues_append (as bs : List Event) :
    progressValues (as ++ bs) = progressValues as ++ progressValues bs := by
  induction as with
  | nil => rfl
  | cons a as ih => cases a <;> simp [progressValues, ih]

lemma progressTotals_append (as bs : List Event) :
    progressTotals (as ++ bs) = progressTotals as ++ progressTotals bs := by
  induction as with
  | nil => rfl
  | cons a as ih => cases a <;> simp [progressTotals, ih]

lemma countProgress_append (as bs : List Event) :
    countProgress (as ++ bs) = countProgress as + countProgress bs := by
  induction as with
  | nil => simp [countProgress]
  | cons a as ih =>
      cases a <;> simp [countProgress, ih]
      omega

lemma countFinished_append (as bs : List Event) :
    countFinished (as ++ bs) = countFinished as + countFinished bs := by
  induction as with
  | nil => simp [countFinished]
  | cons a as ih =>
      cases a <;> simp [countFinished, ih]
      omega

lemma countInstall_append (as bs : List Event) :
    countInstall (as ++ bs) = countInstall as + countInstall bs := by
  induction as with
  | nil => simp [countInstall]
  | cons a as ih =>
      cases a <;> simp [countInstall, ih]
      omega

lemma countErrorLog_append (as bs : List Event) :
    countErrorLog (as ++ bs) = countErrorLog as + countErrorLog bs := by
  induction as with
  | nil => simp [countErrorLog]
  | cons a as ih =>
      cases a <;> simp [countErrorLog, ih]
      omega

lemma countQueried_append (as bs : List Event) :
    countQueried (as ++ bs) = countQueried as + countQueried bs := by
  induction as with
  | nil => simp [countQueried]
  | cons a as ih =>
      cases a <;> simp [countQueried, ih]
      omega

lemma countDownloadStarted_append (as bs : List Event) :
    countDownloadStarted (as ++ bs) =
      countDownloadStarted as + countDownloadStarted bs := by
  induction as with
  | nil => simp [countDownloadStarted]
  | cons a as ih =>
      cases a <;> simp [countDownloadStarted, ih]
      omega

lemma exactTotals_ge (cs : List Nat) :
    ∀ d, ∀ x ∈ exactTotals d cs, d ≤ x := by
  induction cs with
  | nil => intro d x hx; simp [exactTotals] at hx
  | cons c cs ih =>
      intro d x hx
      rw [exactTotals, List.mem_cons] at hx
      rcases hx with h | h
      · omega
      · exact Nat.le_trans (Nat.le_add_right d c) (ih (d + c) x h)

lemma exactTotals_chain (cs : List Nat) :
    ∀ d, List.Chain' (fun a b => a ≤ b) (exactTotals d cs) := by
  induction cs with
  | nil => intro d; exact List.chain'_nil
  | cons c cs ih =>
      intro d
      rw [exactTotals]
      refine List.chain'_cons'.mpr ⟨?_, ih (d + c)⟩
      intro y hy
      exact exactTotals_ge cs (d + c) y (List.mem_of_mem_head? hy)

lemma exactTotals_getLast? (cs : List Nat) :
    ∀ d, cs ≠ [] → (exactTotals d cs).getLast? = some (d + cs.sum) := by
  induction cs with
  | nil => intro d h; exact absurd rfl h
  | cons c cs ih =>
      intro d _
      cases cs with
      | nil => simp [exactTotals]
      | cons c' cs' =>
          have h1 : exactTotals d (c :: c' :: cs') =
              (d + c) :: (d + c + c') :: exactTotals (d + c + c') cs' := rfl
          have h2 : exactTotals (d + c) (c' :: cs') =
              (d + c + c') :: exactTotals (d + c + c') cs' := rfl
          rw [h1, List.getLast?_cons_cons, ← h2,
            ih (d + c) (by simp)]
          congr 1
          simp [List.sum_cons]
          omega

lemma task_update_events (u : UpdateInfo) (res : DownloadResult) :
    check_for_updates_task (UpdaterEnv.builtOk (CheckOutcome.updateAvailable u res)) =
      Event.queried :: Event.downloadStarted :: (download_and_install u res).1 := by
  cases res <;> rfl

lemma progressValues_task_update (u : UpdateInfo) (res : DownloadResult) :
    progressValues
        (check_for_updates_task (UpdaterEnv.builtOk (CheckOutcome.updateAvailable u res))) =
      progressValues (chunkEvents u.contentLength 0 u.chunks).1 := by
  rw [task_update_events]
  cases res <;>
    simp [download_and_install, progressValues, progressValues_append]

/-! Claim theorems. -/

/-- Claim C1: when the update source reports a strictly newer version and the
download is delivered as a finite sequence of chunks (whose total fits the
64-bit counter), the accumulated progress counter after the final chunk equals
the sum of all chunk lengths — hence the full artifact size whenever a total
size is known and the delivered bytes amount to it — and for 10 chunks of
1 MiB each the logged counter sequence is 1·2^20, 2·2^20, …, 10·2^20. -/
theorem update_progress_counter_totals (u : UpdateInfo) (res : DownloadResult)
    (hsum : u.chunks.sum < U64_MOD) (hne : u.chunks ≠ []) :
    (chunkEvents u.contentLength 0 u.chunks).2 = u.chunks.sum ∧
    (progressValues (check_for_updates_task
        (UpdaterEnv.builtOk (CheckOutcome.updateAvailable u res)))).getLast? =
      some u.chunks.sum ∧
    (∀ total, u.contentLength = some total → u.chunks.sum = total →
      (chunkEvents u.contentLength 0 u.chunks).2 = total) ∧
    progressValues (check_for_updates_task
        (UpdaterEnv.builtOk (CheckOutcome.updateAvailable scenarioB
          DownloadResult.success))) =
      [1048576, 2097152, 3145728, 4194304, 5242880, 6291456, 7340032, 8388608,
        9437184, 10485760] := by
  have hexact : (chunkEvents u.contentLength 0 u.chunks).2 = u.chunks.sum := by
    have := chunkEvents_snd_exact u.contentLength u.chunks 0 (by omega)
    simpa using this
  refine ⟨hexact, ?_, ?_, by decide⟩
  · rw [progressValues_task_update,
      progressValues_chunkEvents_exact u.contentLength u.chunks 0 (by omega),
      exactTotals_getLast? u.chunks 0 hne]
    simp
  · intro total _ hst
    rw [hexact, hst]

/-- Witness for C1 at concrete scenario B. -/
theorem update_progress_counter_totals_witness :
    scenarioB.chunks.sum < U64_MOD ∧ scenarioB.chunks ≠ [] ∧
    (chunkEvents scenarioB.contentLength 0 scenarioB.chunks).2 =
      scenarioB.chunks.sum :=
  ⟨by decide, by decide,
    (update_progress_counter_totals scenarioB DownloadResult.success
      (by decide) (by decide)).1⟩

/-- Claim C2: a failed query and a "no newer version" reply produce identical
results — the task emits only the query event, performs no download and no
install, logs no error, and (being a total function into an event list) it
terminates without propagating any error. -/
theorem query_failure_and_no_update_identical :
    check_for_updates_task (UpdaterEnv.builtOk CheckOutcome.checkError) =
      [Event.queried] ∧
    check_for_updates_task (UpdaterEnv.builtOk CheckOutcome.noUpdate) =
      [Event.queried] ∧
    check_for_updates_task (UpdaterEnv.builtOk CheckOutcome.checkError) =
      check_for_updates_task (UpdaterEnv.builtOk CheckOutcome.noUpdate) ∧
    countDownloadStarted
      (check_for_updates_task (UpdaterEnv.builtOk CheckOutcome.checkError)) = 0 ∧
    countInstall
      (check_for_updates_task (UpdaterEnv.builtOk CheckOutcome.checkError)) = 0 ∧
    countErrorLog
      (check_for_updates_task (UpdaterEnv.builtOk CheckOutcome.checkError)) = 0 ∧
    countDownloadStarted
      (check_for_updates_task (UpdaterEnv.builtOk CheckOutcome.noUpdate)) = 0 ∧
    countInstall
      (check_for_updates_task (UpdaterEnv.builtOk CheckOutcome.noUpdate)) = 0 ∧
    countErrorLog
      (check_for_updates_task (UpdaterEnv.builtOk CheckOutcome.noUpdate)) = 0 := by
  decide

/-- Claim C3: when construction of the updater client fails, the task emits
exactly one error-level log line and stops: no query, no download, no progress
line, no completion marker and no install occur, and the task (a total
function) returns normally to the host. -/
theorem builder_failure_logged_and_aborts (msg : String) :
    check_for_updates_task (UpdaterEnv.buildError msg) =
      [Event.errorLog ("Failed to build updater: " ++ msg)] ∧
    countErrorLog (check_for_updates_task (UpdaterEnv.buildError msg)) = 1 ∧
    countQueried (check_for_updates_task (UpdaterEnv.buildError msg)) = 0 ∧
    countDownloadStarted (check_for_updates_task (UpdaterEnv.buildError msg)) = 0 ∧
    countProgress (check_for_updates_task (UpdaterEnv.buildError msg)) = 0 ∧
    countFinished (check_for_updates_task (UpdaterEnv.buildError msg)) = 0 ∧
    countInstall (check_for_updates_task (UpdaterEnv.buildError msg)) = 0 :=
  ⟨rfl, rfl, rfl, rfl, rfl, rfl, rfl⟩

/-- Claim C4: a download or install failure is converted with `.ok()` to a
best-effort `Option` (`none`) and discarded: the task output consists of the
query, the single download invocation (no retry) and the events already logged,
with no error-level log line and no error channel in the task's result type. -/
theorem download_install_errors_swallowed (u : UpdateInfo)
    (res : DownloadResult) (m : String) :
    check_for_updates_task (UpdaterEnv.builtOk (CheckOutcome.updateAvailable u res)) =
      Event.queried :: Event.downloadStarted :: (download_and_install u res).1 ∧
    countQueried (check_for_updates_task
      (UpdaterEnv.builtOk (CheckOutcome.updateAvailable u res))) = 1 ∧
    countDownloadStarted (check_for_updates_task
      (UpdaterEnv.builtOk (CheckOutcome.updateAvailable u res))) = 1 ∧
    countErrorLog (check_for_updates_task (UpdaterEnv.builtOk
      (CheckOutcome.updateAvailable u (DownloadResult.downloadError m)))) = 0 ∧
    countErrorLog (check_for_updates_task (UpdaterEnv.builtOk
      (CheckOutcome.updateAvailable u (DownloadResult.installError m)))) = 0 ∧
    resultOk (download_and_install u (DownloadResult.downloadError m)).2 = none ∧
    resultOk (download_and_install u (DownloadResult.installError m)).2 = none := by
  refine ⟨task_update_events u res, ?_, ?_, ?_, ?_, rfl, rfl⟩
  · rw [task_update_events]
    cases res <;>
      simp [download_and_install, countQueried, countQueried_append,
        countQueried_chunkEvents]
  · rw [task_update_events]
    cases res <;>
      simp [download_and_install, countDownloadStarted,
        countDownloadStarted_append, countDownloadStarted_chunkEvents]
  · rw [task_update_events]
    simp [download_and_install, countErrorLog, countErrorLog_chunkEvents]
  · rw [task_update_events]
    simp [download_and_install, countErrorLog, countErrorLog_append,
      countErrorLog_chunkEvents]

/-- Claim C5: within a single invocation (whose delivered bytes fit the 64-bit
counter) the logged progress counter values are monotonically non-decreasing
across successive chunk callbacks. -/
theorem progress_counter_monotone (u : UpdateInfo) (res : DownloadResult)
    (hsum : u.chunks.sum < U64_MOD) :
    List.Chain' (fun a b => a ≤ b)
      (progressValues (check_for_updates_task
        (UpdaterEnv.builtOk (CheckOutcome.updateAvailable u res)))) := by
  rw [progressValues_task_update,
    progressValues_chunkEvents_exact u.contentLength u.chunks 0 (by omega)]
  exact exactTotals_chain u.chunks 0

/-- Witness for C5 at concrete scenario B. -/
theorem progress_counter_monotone_witness :
    List.Chain' (fun a b => a ≤ b)
      (progressValues (check_for_updates_task
        (UpdaterEnv.builtOk (CheckOutcome.updateAvailable scenarioB
          DownloadResult.success)))) :=
  progress_counter_monotone scenarioB DownloadResult.success (by decide)

/-- Claim C6: in an invocation that proceeds to download and whose download
completes, one progress line (carrying the accumulated count and the
possibly-unknown total) is logged per received chunk, the completion marker is
logged exactly once — after all progress lines — and install is then invoked
exactly once. -/
theorem completed_download_logs_once (u : UpdateInfo) (res : DownloadResult)
    (hres : downloadCompleted res = true) :
    check_for_updates_task (UpdaterEnv.builtOk (CheckOutcome.updateAvailable u res)) =
      Event.queried :: Event.downloadStarted ::
        ((chunkEvents u.contentLength 0 u.chunks).1 ++
          [Event.downloadFinishedLine, Event.installInvoked]) ∧
    countProgress (check_for_updates_task
      (UpdaterEnv.builtOk (CheckOutcome.updateAvailable u res))) = u.chunks.length ∧
    progressTotals (check_for_updates_task
      (UpdaterEnv.builtOk (CheckOutcome.updateAvailable u res))) =
      List.replicate u.chunks.length u.contentLength ∧
    countFinished (check_for_updates_task
      (UpdaterEnv.builtOk (CheckOutcome.updateAvailable u res))) = 1 ∧
    countInstall (check_for_updates_task
      (UpdaterEnv.builtOk (CheckOutcome.updateAvailable u res))) = 1 := by
  cases res with
  | downloadError m => simp [downloadCompleted] at hres
  | installError m =>
      refine ⟨rfl, ?_, ?_, ?_, ?_⟩ <;>
        simp [check_for_updates_task, download_and_install, resultOk,
          countProgress, countProgress_append, countProgress_chunkEvents,
          progressTotals, progressTotals_append, progressTotals_chunkEvents,
          countFinished, countFinished_append, countFinished_chunkEvents,
          countInstall, countInstall_append, countInstall_chunkEvents]
  | success =>
      refine ⟨rfl, ?_, ?_, ?_, ?_⟩ <;>
        simp [check_for_updates_task, download_and_install, resultOk,
          countProgress, countProgress_append, countProgress_chunkEvents,
          progressTotals, progressTotals_append, progressTotals_chunkEvents,
          countFinished, countFinished_append, countFinished_chunkEvents,
          countInstall, countInstall_append, countInstall_chunkEvents]

/-- Witness for C6 at concrete scenario B. -/
theorem completed_download_logs_once_witness :
    downloadCompleted DownloadResult.success = true ∧
    countFinished (check_for_updates_task (UpdaterEnv.builtOk
      (CheckOutcome.updateAvailable scenarioB DownloadResult.success))) = 1 ∧
    countInstall (check_for_updates_task (UpdaterEnv.builtOk
      (CheckOutcome.updateAvailable scenarioB DownloadResult.success))) = 1 :=
  ⟨rfl,
    (completed_download_logs_once scenarioB DownloadResult.success rfl).2.2.2.1,
    (completed_download_logs_once scenarioB DownloadResult.success rfl).2.2.2.2⟩

/-- Claim C7: the automatic startup trigger is a single task with a fixed
5-second delay invoking the check once, spawned only when `debug_assertions`
is off (never in debug builds), while the `check_for_updates` command is
registered with the host in every build configuration. -/
theorem startup_auto_check_production_only :
    startupAutoUpdateTasks true = [] ∧
    startupAutoUpdateTasks false = [{ delaySecs := 5, invocations := 1 }] ∧
    (startupAutoUpdateTasks false).length = 1 ∧
    "check_for_updates" ∈ generatedHandlerCommands := by
  refine ⟨rfl, rfl, rfl, ?_⟩
  simp [generatedHandlerCommands]

/-- Claim C8: the `check_for_updates` command returns `()` to its caller —
a value independent of everything the background task will do — and spawns
exactly one background task, which performs the actual check/download/install
and produces all events. -/
theorem check_command_fire_and_forget (env env2 : UpdaterEnv) :
    (check_for_updates env).1 = () ∧
    (check_for_updates env).2 = [check_for_updates_task env] ∧
    (check_for_updates env).2.length = 1 ∧
    (check_for_updates env).1 = (check_for_updates env2).1 :=
  ⟨rfl, rfl, rfl, rfl⟩

/-- Claim C9: the `downloaded` counter starts at 0 and accumulates with 64-bit
wrapping addition: after `n` chunk callbacks it equals the sum of the first `n`
chunk lengths modulo 2^64, hence the exact sum whenever that sum is below
2^64. -/
theorem downloaded_counter_modular (cs : List Nat) (n : Nat) (t : Option Nat) :
    (chunkEvents t 0 []).2 = 0 ∧
    (chunkEvents t 0 (cs.take n)).2 = (cs.take n).sum % U64_MOD ∧
    ((cs.take n).sum < U64_MOD →
      (chunkEvents t 0 (cs.take n)).2 = (cs.take n).sum) := by
  refine ⟨rfl, ?_, ?_⟩
  · have := chunkEvents_snd t (cs.take n) 0 (by decide)
    simpa using this
  · intro h
    have := chunkEvents_snd_exact t (cs.take n) 0 (by omega)
    simpa using this

/-- Witness for C9 at a concrete chunk list. -/
theorem downloaded_counter_modular_witness :
    (List.take 2 [3, 5, 7]).sum < U64_MOD ∧
    (chunkEvents none 0 (List.take 2 [3, 5, 7])).2 =
      (List.take 2 [3, 5, 7]).sum :=
  ⟨by decide, (downloaded_counter_modular [3, 5, 7] 2 none).2.2 (by decide)⟩

/-- Claim C10: the never-crash guarantee is limited to the update flow — the
host process panics when main-window construction fails, when showing the
window fails, or when running the application loop fails, and it runs to exit
exactly when all three succeed. -/
theorem host_startup_panics (b s r : Bool) :
    main_run { windowBuildOk := false, windowShowOk := s, runOk := r } =
      HostOutcome.panicked PanicSite.windowBuildUnwrap ∧
    main_run { windowBuildOk := true, windowShowOk := false, runOk := r } =
      HostOutcome.panicked PanicSite.windowShowUnwrap ∧
    main_run { windowBuildOk := true, windowShowOk := true, runOk := false } =
      HostOutcome.panicked PanicSite.runExpect ∧
    (main_run { windowBuildOk := b, windowShowOk := s, runOk := r } =
        HostOutcome.exited ↔ b = true ∧ s = true ∧ r = true) := by
  cases b <;> cases s <;> cases r <;> simp [main_run]

end Pond
